import Mathlib

/-!
Verification of the booking-gateway backend (server.js).

The two protected HTTP routes of the Express server, their shared
middleware and their error mapping are embedded as pure Lean functions.
Remote effects — date parsing by the JS Date constructor, serialization
with Date.prototype.toISOString, and the two Google Calendar API calls —
are passed in as function parameters, so the theorems quantify over every
possible behaviour of the remote service.  Each route returns both the
HTTP response it sends and the (at most one) remote call it issued, which
makes "no remote call is made" directly statable.
-/

namespace BookingGateway

/-- JS truthiness of an optional string value: `undefined` and `""` are
falsy, every other string is truthy.  Used for `!CALENDAR_ID`,
`!startDateTimeISO`, `!summary`, `!endDateTimeISO` in server.js. -/
def truthy : Option String → Bool
  | none => false
  | some s => s != ""

/-- A JSON response body sent by the server: `\x7bmessage\x7d` on the base
route, `\x7berror\x7d` on failures, `\x7bavailable\x7d` from
check-availability, and `\x7bsuccess: true, eventLink, eventId\x7d` from
create-booking (the `success` field is always `true` in the source, so it
is folded into the constructor). -/
inductive Body where
  | message : String → Body
  | error : String → Body
  | available : Bool → Body
  | bookingSuccess : String → String → Body
  deriving DecidableEq, Repr

/-- An HTTP response: status code plus JSON body. -/
structure Response where
  status : Nat
  body : Body
  deriving DecidableEq, Repr

/-- Value of the `start` and `end` keys of the Google Calendar event
record: an ISO dateTime string plus a display timezone. -/
structure EventDateTime where
  dateTime : String
  timeZone : String
  deriving DecidableEq, Repr

/-- One reminder override of the event record. -/
structure ReminderOverride where
  method : String
  minutes : Nat
  deriving DecidableEq, Repr

/-- The `reminders` object of the event record. -/
structure EventReminders where
  useDefault : Bool
  overrides : List ReminderOverride
  deriving DecidableEq, Repr

/-- An attendee entry, as it would appear in the commented-out
`attendees` line of server.js. -/
structure Attendee where
  email : String
  responseStatus : String
  deriving DecidableEq, Repr

/-- The event record built by the create-booking handler (server.js lines
212-239).  `attendees := none` models the absence of the `attendees` key:
the line adding it is commented out in the source.  The source field name
`end` is a Lean keyword, hence the guillemets. -/
structure CalendarEvent where
  summary : String
  start : EventDateTime
  «end» : EventDateTime
  description : Option String
  attendees : Option (List Attendee)
  reminders : EventReminders
  deriving DecidableEq, Repr

/-- Builds the event record exactly as server.js lines 212-239 do. -/
def buildEvent (summary startDateTimeISO endDateTimeISO : String)
    (description : Option String) : CalendarEvent :=
  { summary := summary
    start := { dateTime := startDateTimeISO, timeZone := "Europe/Paris" }
    «end» := { dateTime := endDateTimeISO, timeZone := "Europe/Paris" }
    description := description
    attendees := none
    reminders :=
      { useDefault := false
        overrides :=
          [ { method := "email", minutes := 24 * 60 }
          , { method := "popup", minutes := 10 } ] } }

/-- One event item returned by the Google Calendar list call; the handler
only inspects how many there are. -/
structure GCalItem where
  id : String
  deriving DecidableEq, Repr

/-- The `response.data` of a successful events.list call.  The `items`
key may be absent, which the handler treats as zero events. -/
structure ListData where
  items : Option (List GCalItem)
  deriving DecidableEq, Repr

/-- The `response.data` of a successful events.insert call. -/
structure InsertData where
  htmlLink : String
  id : String
  deriving DecidableEq, Repr

/-- The `error` object inside `error.response.data` of a failed Google
API call; its `code` may be absent. -/
structure GApiErrorInfo where
  code : Option Int
  deriving DecidableEq, Repr

/-- The `error.response.data` of a failed Google API call. -/
structure GApiErrorData where
  error : Option GApiErrorInfo
  deriving DecidableEq, Repr

/-- An error thrown by a Google API call.  `responseData = none` models
`error.response && error.response.data` being falsy. -/
structure GApiError where
  message : String
  responseData : Option GApiErrorData
  deriving DecidableEq, Repr

/-- The parameters server.js passes to `calendar.events.list`
(lines 167-174). -/
structure ListParams where
  calendarId : String
  timeMin : String
  timeMax : String
  maxResults : Nat
  singleEvents : Bool
  orderBy : String
  deriving DecidableEq, Repr

/-- The parameters server.js passes to `calendar.events.insert`
(lines 244-248). -/
structure InsertParams where
  calendarId : String
  resource : CalendarEvent
  sendNotifications : Bool
  deriving DecidableEq, Repr

/-- Result of the check-availability route: the HTTP response and the
events.list call issued, if any. -/
structure CAResult where
  response : Response
  listCall : Option ListParams
  deriving DecidableEq, Repr

/-- Result of the create-booking route: the HTTP response and the
events.insert call issued, if any. -/
structure CBResult where
  response : Response
  insertCall : Option InsertParams
  deriving DecidableEq, Repr

/-- Availability flag as computed on server.js line 177:
`!(response.data.items && response.data.items.length > 0)`. -/
def isAvailable (items : Option (List GCalItem)) : Bool :=
  !(match items with
    | none => false
    | some l => decide (l.length > 0))

/-- Number of events reported by a listing whose `items` key may be
absent (an absent key counts as zero events). -/
def itemsLength : Option (List GCalItem) → Nat
  | none => 0
  | some l => l.length

/-- Largest time value (in milliseconds) a JS Date can hold; for a time
value outside `[-MAX_TIME_MILLIS, MAX_TIME_MILLIS]` the Date is invalid
and `toISOString` throws a RangeError. -/
def MAX_TIME_MILLIS : Int := 8640000000000000

/-- The 503 response produced by `ensureCalendarInitialized`
(server.js line 124) when the Google Calendar client is not ready. -/
def serviceUnavailableResponse : Response :=
  ⟨503, Body.error "Service Google Calendar indisponible. Veuillez réessayer plus tard."⟩

/-- The 500 response sent when `CALENDAR_ID` is not configured
(server.js lines 151 and 208). -/
def configErrorResponse : Response :=
  ⟨500, Body.error "Configuration du calendrier invalide côté serveur."⟩

/-- Response to the catch block of check-availability (line 188). -/
def checkGenericErrorResponse : Response :=
  ⟨500, Body.error "Erreur serveur lors de la vérification de disponibilité."⟩

/-- Response to the catch block of create-booking when the failure is not
the 409 conflict case (line 262). -/
def bookingGenericErrorResponse : Response :=
  ⟨500, Body.error "Erreur serveur lors de la création de la réservation."⟩

/-- The specific 409 response for the slot-taken case (line 258). -/
def slotTakenResponse : Response :=
  ⟨409, Body.error "Ce créneau horaire est déjà occupé. Veuillez choisir un autre créneau."⟩

/-- The 400 validation response of check-availability (line 155). -/
def missingStartResponse : Response :=
  ⟨400, Body.error "Date et heure de début manquantes pour la vérification."⟩

/-- The 400 validation response of create-booking (line 203). -/
def missingFieldsResponse : Response :=
  ⟨400, Body.error "Les informations de résumé, date/heure de début et de fin sont requises."⟩

/-- Response mapping of the check-availability try/catch once the
events.list call has been made (server.js lines 167-189): a successful
listing yields 200 with the availability flag, any thrown error yields
the generic 500. -/
def listResponse (result : Except GApiError ListData) : Response :=
  match result with
  | Except.ok data => ⟨200, Body.available (isAvailable data.items)⟩
  | Except.error _ => checkGenericErrorResponse

/-- Response mapping of the create-booking try/catch once the
events.insert call has been made (server.js lines 241-263): success
yields 200 with link and id; a failure whose
`error.response.data.error.code === 409` yields the specific 409
response; every other failure yields the generic 500. -/
def insertResponse (result : Except GApiError InsertData) : Response :=
  match result with
  | Except.ok d => ⟨200, Body.bookingSuccess d.htmlLink d.id⟩
  | Except.error e =>
    match e.responseData with
    | some data =>
      match data.error with
      | some info =>
        if info.code == some 409 then slotTakenResponse
        else bookingGenericErrorResponse
      | none => bookingGenericErrorResponse
    | none => bookingGenericErrorResponse

/-- The POST /api/check-availability route (server.js lines 142-190),
including the `ensureCalendarInitialized` middleware.
`calendarClientReady` is whether `calendarClient` is set;
`CALENDAR_ID` is the environment value read at request time;
`startDateTimeISO` is the request-body field;
`getTime` models `new Date(s).getTime()` (`none` for NaN, i.e. an
unparseable date, in which case `toISOString` on the derived end time
throws and the catch block answers);
`toISOString` models serialization of a valid time value;
`eventsList` models the remote `calendar.events.list` call. -/
def checkAvailabilityRoute
    (calendarClientReady : Bool)
    (CALENDAR_ID : Option String)
    (startDateTimeISO : Option String)
    (getTime : String → Option Int)
    (toISOString : Int → String)
    (eventsList : ListParams → Except GApiError ListData) : CAResult :=
  if !calendarClientReady then ⟨serviceUnavailableResponse, none⟩
  else if !truthy CALENDAR_ID then ⟨configErrorResponse, none⟩
  else if !truthy startDateTimeISO then ⟨missingStartResponse, none⟩
  else
    match getTime (startDateTimeISO.getD "") with
    | none => ⟨checkGenericErrorResponse, none⟩
    | some t =>
      let endMillis := t + 30 * 60 * 1000
      if endMillis.natAbs > MAX_TIME_MILLIS.natAbs then
        ⟨checkGenericErrorResponse, none⟩
      else
        let params : ListParams :=
          { calendarId := CALENDAR_ID.getD ""
            timeMin := startDateTimeISO.getD ""
            timeMax := toISOString endMillis
            maxResults := 1
            singleEvents := true
            orderBy := "startTime" }
        ⟨listResponse (eventsList params), some params⟩

/-- The POST /api/create-booking route (server.js lines 194-264),
including the `ensureCalendarInitialized` middleware.  Field validation
(line 201) runs before the `CALENDAR_ID` check (line 206).  `email` is
destructured from the body but never used by the handler: the attendees
line is commented out. -/
def createBookingRoute
    (calendarClientReady : Bool)
    (CALENDAR_ID : Option String)
    (summary startDateTimeISO endDateTimeISO : Option String)
    (description email : Option String)
    (eventsInsert : InsertParams → Except GApiError InsertData) : CBResult :=
  if !calendarClientReady then ⟨serviceUnavailableResponse, none⟩
  else if !(truthy summary && truthy startDateTimeISO && truthy endDateTimeISO) then
    ⟨missingFieldsResponse, none⟩
  else if !truthy CALENDAR_ID then ⟨configErrorResponse, none⟩
  else
    let event := buildEvent (summary.getD "") (startDateTimeISO.getD "")
      (endDateTimeISO.getD "") description
    let params : InsertParams :=
      { calendarId := CALENDAR_ID.getD ""
        resource := event
        sendNotifications := true }
    ⟨insertResponse (eventsInsert params), some params⟩

/-- The conflict code carried by a failed insert:
`error.response.data.error.code`, when every level is present. -/
def errorCode (e : GApiError) : Option Int :=
  (e.responseData.bind GApiErrorData.error).bind GApiErrorInfo.code

/-! ## Helper lemmas -/

theorem truthy_some {s : String} (h : s ≠ "") : truthy (some s) = true := by
  simp [truthy, h]

theorem isAvailable_eq_decide (items : Option (List GCalItem)) :
    isAvailable items = decide (itemsLength items = 0) := by
  cases items with
  | none => rfl
  | some l => cases l <;> simp [isAvailable, itemsLength]

/-- Response of `insertResponse` on a failed call, expressed through
`errorCode`. -/
theorem insertResponse_error (e : GApiError) :
    insertResponse (Except.error e) =
      if errorCode e == some 409 then slotTakenResponse
      else bookingGenericErrorResponse := by
  obtain ⟨msg, rd⟩ := e
  cases rd with
  | none => rfl
  | some data =>
    cases hd : data.error with
    | none => simp [insertResponse, errorCode, Option.bind, hd]
    | some info => simp [insertResponse, errorCode, Option.bind, hd]

/-! ## Sample concrete inputs used by the witnesses -/

/-- A date-parsing behaviour that accepts every string as the epoch. -/
def sampleGetTime : String → Option Int := fun _ => some 0

/-- A fixed serialization of time values. -/
def sampleToISOString : Int → String := fun _ => "1970-01-01T00:30:00.000Z"

/-- A remote listing that reports an empty item array. -/
def sampleListEmpty : ListParams → Except GApiError ListData :=
  fun _ => Except.ok ⟨some []⟩

/-- A remote insert that always succeeds. -/
def sampleInsertOk : InsertParams → Except GApiError InsertData :=
  fun _ => Except.ok ⟨"https://calendar.local/event", "evt1"⟩

/-- A remote insert that always fails with the 409 conflict shape. -/
def sampleInsert409 : InsertParams → Except GApiError InsertData :=
  fun _ => Except.error ⟨"Conflict", some ⟨some ⟨some 409⟩⟩⟩

/-- A date-parsing behaviour on which every string is unparseable. -/
def sampleGetTimeNaN : String → Option Int := fun _ => none

/-! ## Claim theorems -/

/-- C1: with the client Ready, the calendar identifier configured and
`startDateTimeISO` present (and parseable, so the listing is actually
performed and returns), the response is 200 and carries
`available = true` iff the listing over the 30-minute probe window
returned zero events; at least one event gives `available = false`. -/
theorem checkAvailability_iff_zero_events
    (cid s : String) (hcid : cid ≠ "") (hs : s ≠ "")
    (getTime : String → Option Int) (toISOString : Int → String)
    (eventsList : ListParams → Except GApiError ListData)
    (t : Int) (ht : getTime s = some t)
    (hrange : (t + 30 * 60 * 1000).natAbs ≤ 8640000000000000)
    (data : ListData)
    (hok : eventsList
      ⟨cid, s, toISOString (t + 30 * 60 * 1000), 1, true, "startTime"⟩
      = Except.ok data) :
    (checkAvailabilityRoute true (some cid) (some s) getTime toISOString
        eventsList).response
      = ⟨200, Body.available (decide (itemsLength data.items = 0))⟩ ∧
    ((checkAvailabilityRoute true (some cid) (some s) getTime toISOString
        eventsList).response = ⟨200, Body.available true⟩
      ↔ itemsLength data.items = 0) ∧
    (1 ≤ itemsLength data.items →
      (checkAvailabilityRoute true (some cid) (some s) getTime toISOString
        eventsList).response = ⟨200, Body.available false⟩) := by
  norm_num at hok hrange
  have hroute : checkAvailabilityRoute true (some cid) (some s) getTime
      toISOString eventsList
      = ⟨⟨200, Body.available (decide (itemsLength data.items = 0))⟩,
         some ⟨cid, s, toISOString (t + 1800000), 1, true, "startTime"⟩⟩ := by
    simp [checkAvailabilityRoute, truthy_some hcid, truthy_some hs, ht,
      MAX_TIME_MILLIS, Nat.not_lt.mpr hrange, hok, listResponse,
      isAvailable_eq_decide]
  refine ⟨by rw [hroute], ?_, ?_⟩
  · rw [hroute]
    simp
  · intro h
    rw [hroute]
    have hne : itemsLength data.items ≠ 0 := by omega
    simp [hne]

/-- C2: with the client Ready and all checks passed, a failed insert is
answered 409 with the specific slot-taken message iff
`error.response.data.error.code` equals 409; every other failure gets
the single generic 500 message, and exactly one insert call is made
(no retry). -/
theorem createBooking_conflict_mapping
    (cid su st en : String) (de em : Option String)
    (hcid : cid ≠ "") (hsu : su ≠ "") (hst : st ≠ "") (hen : en ≠ "")
    (eventsInsert : InsertParams → Except GApiError InsertData)
    (e : GApiError)
    (herr : eventsInsert ⟨cid, buildEvent su st en de, true⟩
      = Except.error e) :
    ((createBookingRoute true (some cid) (some su) (some st) (some en)
        de em eventsInsert).response = slotTakenResponse
      ↔ errorCode e = some 409) ∧
    (errorCode e ≠ some 409 →
      (createBookingRoute true (some cid) (some su) (some st) (some en)
        de em eventsInsert).response = bookingGenericErrorResponse) ∧
    (createBookingRoute true (some cid) (some su) (some st) (some en)
        de em eventsInsert).insertCall
      = some ⟨cid, buildEvent su st en de, true⟩ := by
  have hroute : createBookingRoute true (some cid) (some su) (some st)
      (some en) de em eventsInsert
      = ⟨insertResponse (Except.error e),
         some ⟨cid, buildEvent su st en de, true⟩⟩ := by
    simp [createBookingRoute, truthy_some hcid, truthy_some hsu,
      truthy_some hst, truthy_some hen, herr]
  rw [hroute]
  rw [insertResponse_error]
  by_cases h409 : errorCode e = some 409
  · have hbe : (errorCode e == some 409) = true := by simp [h409]
    refine ⟨?_, ?_, rfl⟩
    · simp [hbe, h409]
    · intro h; exact absurd h409 h
  · have hbe : (errorCode e == some 409) = false := by simp [h409]
    refine ⟨?_, ?_, rfl⟩
    · simp [hbe, h409, slotTakenResponse, bookingGenericErrorResponse]
    · intro _
      simp [hbe]

/-- C3: when the remote client is Uninitialized, both protected routes
answer 503 with the service-unavailable error whatever the body and the
remote behaviour, and no remote call is made (field validation is never
reached). -/
theorem uninitialized_yields_503
    (cid sISO su st en de em : Option String)
    (getTime : String → Option Int) (toISOString : Int → String)
    (eventsList : ListParams → Except GApiError ListData)
    (eventsInsert : InsertParams → Except GApiError InsertData) :
    checkAvailabilityRoute false cid sISO getTime toISOString eventsList
      = ⟨serviceUnavailableResponse, none⟩ ∧
    createBookingRoute false cid su st en de em eventsInsert
      = ⟨serviceUnavailableResponse, none⟩ :=
  ⟨rfl, rfl⟩

/-- C4: with the client Ready and the calendar identifier configured (the
cases governed by C3 and C8 set aside), a check-availability request
whose body lacks `startDateTimeISO` is answered 400 with the validation
error, and no remote call is made. -/
theorem checkAvailability_missingStart_400
    (cid : String) (hcid : cid ≠ "")
    (getTime : String → Option Int) (toISOString : Int → String)
    (eventsList : ListParams → Except GApiError ListData) :
    checkAvailabilityRoute true (some cid) none getTime toISOString
      eventsList = ⟨missingStartResponse, none⟩ := by
  simp [checkAvailabilityRoute, truthy, hcid]

/-- C5: with the client Ready, a create-booking request lacking any of
`summary`, `startDateTimeISO`, `endDateTimeISO` is answered 400 with the
validation error and no remote call is made, whatever the calendar
configuration (validation runs first). -/
theorem createBooking_missingFields_400
    (cid su st en de em : Option String)
    (eventsInsert : InsertParams → Except GApiError InsertData)
    (h : su = none ∨ st = none ∨ en = none) :
    createBookingRoute true cid su st en de em eventsInsert
      = ⟨missingFieldsResponse, none⟩ := by
  rcases h with h | h | h <;> subst h <;> simp [createBookingRoute, truthy]

/-- C6: whatever the request (any email value, any client state, any
remote behaviour), if an insert call is issued its event record has no
attendees field. -/
theorem bookingEvent_never_has_attendees
    (ready : Bool) (cid su st en de em : Option String)
    (eventsInsert : InsertParams → Except GApiError InsertData)
    (p : InsertParams)
    (hp : (createBookingRoute ready cid su st en de em
      eventsInsert).insertCall = some p) :
    p.resource.attendees = none := by
  cases ready with
  | false => simp [createBookingRoute] at hp
  | true =>
    cases hv : (truthy su && truthy st && truthy en) with
    | false => simp [createBookingRoute, hv] at hp
    | true =>
      cases hc : truthy cid with
      | false => simp [createBookingRoute, hv, hc] at hp
      | true =>
        simp [createBookingRoute, hv, hc] at hp
        subst hp
        simp [buildEvent]

/-- C7: on every successful create-booking, the submitted event record
carries the fixed display timezone Europe/Paris on both start and end,
disables default reminders, and installs exactly the two overrides
email-1440-minutes and popup-10-minutes; the response is 200 with the
created link and id. -/
theorem bookingEvent_fixed_fields
    (cid su st en : String) (de em : Option String)
    (hcid : cid ≠ "") (hsu : su ≠ "") (hst : st ≠ "") (hen : en ≠ "")
    (eventsInsert : InsertParams → Except GApiError InsertData)
    (d : InsertData)
    (hok : eventsInsert ⟨cid, buildEvent su st en de, true⟩
      = Except.ok d) :
    (createBookingRoute true (some cid) (some su) (some st) (some en)
        de em eventsInsert).response
      = ⟨200, Body.bookingSuccess d.htmlLink d.id⟩ ∧
    (createBookingRoute true (some cid) (some su) (some st) (some en)
        de em eventsInsert).insertCall
      = some ⟨cid, buildEvent su st en de, true⟩ ∧
    (buildEvent su st en de).start.timeZone = "Europe/Paris" ∧
    (buildEvent su st en de).«end».timeZone = "Europe/Paris" ∧
    (buildEvent su st en de).reminders.useDefault = false ∧
    (buildEvent su st en de).reminders.overrides
      = [⟨"email", 1440⟩, ⟨"popup", 10⟩] := by
  have hroute : createBookingRoute true (some cid) (some su) (some st)
      (some en) de em eventsInsert
      = ⟨⟨200, Body.bookingSuccess d.htmlLink d.id⟩,
         some ⟨cid, buildEvent su st en de, true⟩⟩ := by
    simp [createBookingRoute, truthy_some hcid, truthy_some hsu,
      truthy_some hst, truthy_some hen, hok, insertResponse]
  refine ⟨by rw [hroute], by rw [hroute], rfl, rfl, rfl, rfl⟩

/-- C8 counterexample: with the client Ready and `CALENDAR_ID` absent, a
create-booking request that fails field validation is answered 400, not
500 — validation runs before the configuration check. -/
theorem configMissing_counterexample :
    (createBookingRoute true none none none none none none
        (fun _ => Except.ok ⟨"https://calendar.local/e", "evt1"⟩)).response
      = missingFieldsResponse ∧
    (createBookingRoute true none none none none none none
        (fun _ => Except.ok ⟨"https://calendar.local/e", "evt1"⟩)).response.status
      ≠ 500 := by
  constructor <;> decide

/-- C8 amended: with the client Ready and `CALENDAR_ID` absent at request
time, check-availability answers 500 with the calendar-configuration
error regardless of body, and create-booking does so provided its three
required fields are present; in both cases no remote call is made. -/
theorem configMissing_yields_500
    (sISO de em : Option String) (su st en : String)
    (hsu : su ≠ "") (hst : st ≠ "") (hen : en ≠ "")
    (getTime : String → Option Int) (toISOString : Int → String)
    (eventsList : ListParams → Except GApiError ListData)
    (eventsInsert : InsertParams → Except GApiError InsertData) :
    checkAvailabilityRoute true none sISO getTime toISOString eventsList
      = ⟨configErrorResponse, none⟩ ∧
    createBookingRoute true none (some su) (some st) (some en) de em
      eventsInsert = ⟨configErrorResponse, none⟩ := by
  constructor
  · simp [checkAvailabilityRoute, truthy]
  · simp [createBookingRoute, truthy, hsu, hst, hen]

/-- C9: with the client Ready, the calendar configured and a present but
unparseable `startDateTimeISO`, the date computation faults inside the
try block (toISOString on an invalid Date throws) and the catch block
answers the generic 500, not a 400 validation error; no remote call is
made. -/
theorem checkAvailability_unparseable_500
    (cid s : String) (hcid : cid ≠ "") (hs : s ≠ "")
    (getTime : String → Option Int) (toISOString : Int → String)
    (eventsList : ListParams → Except GApiError ListData)
    (hbad : getTime s = none) :
    checkAvailabilityRoute true (some cid) (some s) getTime toISOString
      eventsList = ⟨checkGenericErrorResponse, none⟩ ∧
    checkGenericErrorResponse.status = 500 ∧
    missingStartResponse.status = 400 ∧
    checkGenericErrorResponse ≠ missingStartResponse := by
  refine ⟨?_, rfl, rfl, by decide⟩
  simp [checkAvailabilityRoute, truthy_some hcid, truthy_some hs, hbad]

/-- C10: both validations use JS truthiness, so an empty-string required
field is rejected 400 exactly as if it were absent: each route gives the
same result on `some ""` as on `none`, and that result is the 400
validation response. -/
theorem emptyString_treated_as_missing
    (cid : String) (hcid : cid ≠ "")
    (cidO su st en de em : Option String)
    (getTime : String → Option Int) (toISOString : Int → String)
    (eventsList : ListParams → Except GApiError ListData)
    (eventsInsert : InsertParams → Except GApiError InsertData) :
    (createBookingRoute true cidO (some "") st en de em eventsInsert
      = createBookingRoute true cidO none st en de em eventsInsert) ∧
    (createBookingRoute true cidO (some "") st en de em eventsInsert
      = ⟨missingFieldsResponse, none⟩) ∧
    (createBookingRoute true cidO su (some "") en de em eventsInsert
      = createBookingRoute true cidO su none en de em eventsInsert) ∧
    (createBookingRoute true cidO su (some "") en de em eventsInsert
      = ⟨missingFieldsResponse, none⟩) ∧
    (createBookingRoute true cidO su st (some "") de em eventsInsert
      = createBookingRoute true cidO su st none de em eventsInsert) ∧
    (createBookingRoute true cidO su st (some "") de em eventsInsert
      = ⟨missingFieldsResponse, none⟩) ∧
    (checkAvailabilityRoute true (some cid) (some "") getTime toISOString
        eventsList
      = checkAvailabilityRoute true (some cid) none getTime toISOString
        eventsList) ∧
    (checkAvailabilityRoute true (some cid) (some "") getTime toISOString
        eventsList = ⟨missingStartResponse, none⟩) := by
  refine ⟨?_, ?_, ?_, ?_, ?_, ?_, ?_, ?_⟩ <;>
    simp [createBookingRoute, checkAvailabilityRoute, truthy, hcid]

/-! ## Witnesses -/

/-- Witness for C1 at a concrete request with an empty listing. -/
theorem checkAvailability_iff_zero_events_witness :
    ("cal" : String) ≠ "" ∧
    sampleGetTime "2024-06-01T10:00:00Z" = some 0 ∧
    ((checkAvailabilityRoute true (some "cal")
        (some "2024-06-01T10:00:00Z") sampleGetTime sampleToISOString
        sampleListEmpty).response = ⟨200, Body.available true⟩
      ↔ itemsLength (some ([] : List GCalItem)) = 0) :=
  ⟨by decide, rfl,
   (checkAvailability_iff_zero_events "cal" "2024-06-01T10:00:00Z"
     (by decide) (by decide) sampleGetTime sampleToISOString
     sampleListEmpty 0 rfl (by decide) ⟨some []⟩ rfl).2.1⟩

/-- Witness for C2 at a concrete request whose insert fails with the
conflict shape. -/
theorem createBooking_conflict_mapping_witness :
    errorCode ⟨"Conflict", some ⟨some ⟨some 409⟩⟩⟩ = some 409 ∧
    (createBookingRoute true (some "cal") (some "Consult")
        (some "2024-06-01T10:00:00Z") (some "2024-06-01T10:30:00Z")
        none none sampleInsert409).response = slotTakenResponse :=
  ⟨rfl,
   ((createBooking_conflict_mapping "cal" "Consult"
       "2024-06-01T10:00:00Z" "2024-06-01T10:30:00Z" none none
       (by decide) (by decide) (by decide) (by decide) sampleInsert409
       ⟨"Conflict", some ⟨some ⟨some 409⟩⟩⟩ rfl).1).mpr rfl⟩

/-- Witness for C4 at a concrete configured request with no start. -/
theorem checkAvailability_missingStart_400_witness :
    ("cal" : String) ≠ "" ∧
    checkAvailabilityRoute true (some "cal") none sampleGetTime
      sampleToISOString sampleListEmpty = ⟨missingStartResponse, none⟩ :=
  ⟨by decide, checkAvailability_missingStart_400 "cal" (by decide)
    sampleGetTime sampleToISOString sampleListEmpty⟩

/-- Witness for C5 at a concrete request with no summary. -/
theorem createBooking_missingFields_400_witness :
    ((none : Option String) = none ∨
      (some "2024-06-01T10:00:00Z" : Option String) = none ∨
      (some "2024-06-01T10:30:00Z" : Option String) = none) ∧
    createBookingRoute true (some "cal") none
      (some "2024-06-01T10:00:00Z") (some "2024-06-01T10:30:00Z")
      none none sampleInsertOk = ⟨missingFieldsResponse, none⟩ :=
  ⟨Or.inl rfl,
   createBooking_missingFields_400 (some "cal") none
     (some "2024-06-01T10:00:00Z") (some "2024-06-01T10:30:00Z")
     none none sampleInsertOk (Or.inl rfl)⟩

/-- Witness for C6 at a concrete request that supplies an email. -/
theorem bookingEvent_never_has_attendees_witness :
    (createBookingRoute true (some "cal") (some "Consult")
        (some "2024-06-01T10:00:00Z") (some "2024-06-01T10:30:00Z")
        none (some "client@example.com") sampleInsertOk).insertCall
      = some ⟨"cal", buildEvent "Consult" "2024-06-01T10:00:00Z"
          "2024-06-01T10:30:00Z" none, true⟩ ∧
    (⟨"cal", buildEvent "Consult" "2024-06-01T10:00:00Z"
        "2024-06-01T10:30:00Z" none, true⟩ : InsertParams).resource.attendees
      = none :=
  ⟨rfl,
   bookingEvent_never_has_attendees true (some "cal") (some "Consult")
     (some "2024-06-01T10:00:00Z") (some "2024-06-01T10:30:00Z") none
     (some "client@example.com") sampleInsertOk
     ⟨"cal", buildEvent "Consult" "2024-06-01T10:00:00Z"
       "2024-06-01T10:30:00Z" none, true⟩ rfl⟩

/-- Witness for C7 at a concrete successful booking. -/
theorem bookingEvent_fixed_fields_witness :
    sampleInsertOk ⟨"cal", buildEvent "Consult" "2024-06-01T10:00:00Z"
        "2024-06-01T10:30:00Z" none, true⟩
      = Except.ok ⟨"https://calendar.local/event", "evt1"⟩ ∧
    (buildEvent "Consult" "2024-06-01T10:00:00Z" "2024-06-01T10:30:00Z"
        none).reminders.overrides = [⟨"email", 1440⟩, ⟨"popup", 10⟩] :=
  ⟨rfl,
   (bookingEvent_fixed_fields "cal" "Consult" "2024-06-01T10:00:00Z"
     "2024-06-01T10:30:00Z" none none (by decide) (by decide) (by decide)
     (by decide) sampleInsertOk ⟨"https://calendar.local/event", "evt1"⟩
     rfl).2.2.2.2.2⟩

/-- Witness for the amended C8 at concrete requests with no calendar
identifier. -/
theorem configMissing_yields_500_witness :
    ("Consult" : String) ≠ "" ∧
    checkAvailabilityRoute true none (some "2024-06-01T10:00:00Z")
      sampleGetTime sampleToISOString sampleListEmpty
      = ⟨configErrorResponse, none⟩ ∧
    createBookingRoute true none (some "Consult")
      (some "2024-06-01T10:00:00Z") (some "2024-06-01T10:30:00Z")
      none none sampleInsertOk = ⟨configErrorResponse, none⟩ :=
  ⟨by decide,
   (configMissing_yields_500 (some "2024-06-01T10:00:00Z") none none
     "Consult" "2024-06-01T10:00:00Z" "2024-06-01T10:30:00Z"
     (by decide) (by decide) (by decide) sampleGetTime sampleToISOString
     sampleListEmpty sampleInsertOk).1,
   (configMissing_yields_500 (some "2024-06-01T10:00:00Z") none none
     "Consult" "2024-06-01T10:00:00Z" "2024-06-01T10:30:00Z"
     (by decide) (by decide) (by decide) sampleGetTime sampleToISOString
     sampleListEmpty sampleInsertOk).2⟩

/-- Witness for C9 at a concrete unparseable start string. -/
theorem checkAvailability_unparseable_500_witness :
    sampleGetTimeNaN "not-a-date" = none ∧
    checkAvailabilityRoute true (some "cal") (some "not-a-date")
      sampleGetTimeNaN sampleToISOString sampleListEmpty
      = ⟨checkGenericErrorResponse, none⟩ :=
  ⟨rfl,
   (checkAvailability_unparseable_500 "cal" "not-a-date" (by decide)
     (by decide) sampleGetTimeNaN sampleToISOString sampleListEmpty
     rfl).1⟩

/-- Witness for C10 at concrete requests carrying empty-string fields. -/
theorem emptyString_treated_as_missing_witness :
    ("cal" : String) ≠ "" ∧
    createBookingRoute true (some "cal") (some "")
      (some "2024-06-01T10:00:00Z") (some "2024-06-01T10:30:00Z")
      none none sampleInsertOk = ⟨missingFieldsResponse, none⟩ ∧
    checkAvailabilityRoute true (some "cal") (some "") sampleGetTime
      sampleToISOString sampleListEmpty = ⟨missingStartResponse, none⟩ :=
  ⟨by decide,
   (emptyString_treated_as_missing "cal" (by decide) (some "cal")
     (some "Consult") (some "2024-06-01T10:00:00Z")
     (some "2024-06-01T10:30:00Z") none none sampleGetTime
     sampleToISOString sampleListEmpty sampleInsertOk).2.1,
   (emptyString_treated_as_missing "cal" (by decide) (some "cal")
     (some "Consult") (some "2024-06-01T10:00:00Z")
     (some "2024-06-01T10:30:00Z") none none sampleGetTime
     sampleToISOString sampleListEmpty
     sampleInsertOk).2.2.2.2.2.2.2⟩

end BookingGateway
